import Mathlib

/-!
Shallow embedding of `src/agent.py` (DSA Interview Prep Agent).

The stateful `ProgressTracker` is modelled by explicit state passing on the
`UserData` structure; the Python `set` `topics_covered` becomes a `Finset
String`; timestamps (`datetime.now()`) become `Nat` parameters supplied by
the caller; the external Gemini model calls become a `ModelResponse`
parameter (success with a text, or an exception message), exactly covering
the `try`/`except` structure of the source.  Python floats are modelled by
rationals; `round(x, 2)` is modelled by rounding `x * 100` to the nearest
integer and dividing by 100.
-/

namespace DSAAgent

/-- One record appended to `user_data['problems_solved']` by
`ProgressTracker.update_progress`. -/
structure Attempt where
  id : String
  topic : String
  difficulty : String
  solved : Bool
  timestamp : Nat
deriving Repr, DecidableEq

/-- The `self.user_data` dictionary of `ProgressTracker`. -/
structure UserData where
  problems_solved : List Attempt
  topics_covered : Finset String
  weak_areas : List String
  streak_days : Nat
  total_problems : Nat
  last_session : Option Nat
deriving DecidableEq

/-- `ProgressTracker.__init__`: the empty progress state. -/
def initial_user_data : UserData :=
  { problems_solved := []
  , topics_covered := ∅
  , weak_areas := []
  , streak_days := 0
  , total_problems := 0
  , last_session := none }

/-- The summary dictionary returned by `get_progress_summary`.
`topics_covered` is built by `list(...)` from a Python set, whose iteration
order is unspecified, so it is kept as a set here. -/
structure Summary where
  total_problems : Nat
  problems_solved : Nat
  accuracy : ℚ
  topics_covered : Finset String
  weak_areas : List String
deriving DecidableEq

/-- `round(x, 2)` of the source, on rationals: round `x * 100` to the
nearest integer, divide by 100.  (Python rounds the nearest `float`;
ties, which Python breaks to even, do not arise in the claims checked
here.) -/
def round2 (q : ℚ) : ℚ := (round (q * 100) : ℤ) / 100

/-- `solved_count` as computed inside `get_progress_summary`:
`sum(1 for p in self.user_data['problems_solved'] if p['solved'])`. -/
def solved_count (s : UserData) : Nat :=
  (s.problems_solved.filter (fun p => p.solved)).length

/-- `ProgressTracker.get_progress_summary`. -/
def get_progress_summary (s : UserData) : Summary :=
  let sc := solved_count s
  let accuracy : ℚ :=
    if s.total_problems > 0 then (sc : ℚ) / (s.total_problems : ℚ) * 100 else 0
  { total_problems := s.total_problems
  , problems_solved := sc
  , accuracy := round2 accuracy
  , topics_covered := s.topics_covered
  , weak_areas := s.weak_areas }

/-- `ProgressTracker.update_progress`: appends the attempt, adds the topic
to the covered set, increments the counter, and appends the topic to
`weak_areas` when the attempt is unsolved and the topic is not yet there.
Returns the summary of the new state together with the new state. -/
def update_progress (s : UserData) (problem_id topic difficulty : String)
    (solved : Bool) (now : Nat) : Summary × UserData :=
  let s' : UserData :=
    { s with
      problems_solved :=
        s.problems_solved ++ [⟨problem_id, topic, difficulty, solved, now⟩]
      topics_covered := insert topic s.topics_covered
      total_problems := s.total_problems + 1
      weak_areas :=
        if ¬ solved ∧ topic ∉ s.weak_areas then s.weak_areas ++ [topic]
        else s.weak_areas }
  (get_progress_summary s', s')

/-- The `all_topics` list of `ProgressTracker.recommend_next_topic`. -/
def all_topics : List String :=
  ["Arrays", "Linked Lists", "Trees", "Graphs", "Dynamic Programming",
   "Backtracking", "Greedy", "Sorting", "Searching", "Strings"]

/-- `ProgressTracker.recommend_next_topic`: first weak area if any, else
first uncovered catalog topic, else the catalog's first topic. -/
def recommend_next_topic (s : UserData) : String :=
  match s.weak_areas with
  | t :: _ => t
  | [] =>
    match all_topics.filter (fun t => decide (t ∉ s.topics_covered)) with
    | u :: _ => u
    | [] => all_topics.headD ""

/-- Outcome of one `client.models.generate_content` call: the response
text, or the exception caught by the `except` branch. -/
inductive ModelResponse where
  | ok (text : String)
  | exn (msg : String)
deriving Repr, DecidableEq

/-- The problem dictionary built by `ProblemGeneratorAgent.generate_problem`
on success. -/
structure Problem where
  id : String
  topic : String
  difficulty : String
  content : String
  generated_at : Nat
deriving Repr, DecidableEq

/-- Result of `generate_problem`: the problem, or the `{'error': ...}`
dictionary of the `except` branch. -/
inductive GenResult where
  | ok (p : Problem)
  | error (msg : String)
deriving Repr, DecidableEq

/-- The id string `f"{topic.lower().replace(' ', '_')}_{timestamp}"`
(the timestamp format is abstracted to the decimal rendering of `now`). -/
def problem_id_of (topic : String) (now : Nat) : String :=
  (topic.map Char.toLower).replace " " "_" ++ "_" ++ toString now

/-- `ProblemGeneratorAgent.generate_problem`. -/
def generate_problem (topic difficulty _user_level : String)
    (resp : ModelResponse) (now : Nat) : GenResult :=
  match resp with
  | .ok text => .ok ⟨problem_id_of topic now, topic, difficulty, text, now⟩
  | .exn msg => .error msg

/-- The evaluation dictionary built by
`SolutionEvaluatorAgent.evaluate_solution` on success.  Note the source
puts no `solved` field in it: only `problem_id`, `feedback`,
`evaluated_at`. -/
structure Evaluation where
  problem_id : String
  feedback : String
  evaluated_at : Nat
deriving Repr, DecidableEq

/-- Result of `evaluate_solution`: the evaluation, or the `{'error': ...}`
dictionary of the `except` branch. -/
inductive EvalResult where
  | ok (e : Evaluation)
  | error (msg : String)
deriving Repr, DecidableEq

/-- `SolutionEvaluatorAgent.evaluate_solution`, as a function of the model
response. -/
def evaluate_solution (problem_id : String) (resp : ModelResponse)
    (now : Nat) : EvalResult :=
  match resp with
  | .ok text => .ok ⟨problem_id, text, now⟩
  | .exn msg => .error msg

/-- Return value of `DSAInterviewPrepAgent.start_session`. -/
structure SessionResult where
  status : String
  problem : GenResult
  progress : Summary
deriving DecidableEq

/-- `DSAInterviewPrepAgent.start_session`: recommend a topic, generate a
Medium problem for it, and return it with the current summary.  The
progress tracker is only read. -/
def start_session (st : UserData) (user_level : String)
    (resp : ModelResponse) (now : Nat) : SessionResult × UserData :=
  let topic := recommend_next_topic st
  let problem := generate_problem topic "Medium" user_level resp now
  ({ status := "session_started"
   , problem := problem
   , progress := get_progress_summary st }, st)

/-- Return value of `DSAInterviewPrepAgent.submit_solution`. -/
structure SubmitResult where
  status : String
  evaluation : EvalResult
  progress : Summary
deriving DecidableEq

/-- `DSAInterviewPrepAgent.submit_solution`: evaluate the submission, then
record progress.  Exactly as in the source, the recorded attempt uses the
hardcoded `solved = True`, topic `'Dynamic Programming'` and difficulty
`'Medium'`, and the evaluation result is not inspected before recording. -/
def submit_solution (st : UserData) (problem_id _solution_code _language : String)
    (resp : ModelResponse) (now : Nat) : SubmitResult × UserData :=
  let evaluation := evaluate_solution problem_id resp now
  let solved := true
  let (_, st') := update_progress st problem_id "Dynamic Programming" "Medium" solved now
  ({ status := "solution_evaluated"
   , evaluation := evaluation
   , progress := get_progress_summary st' }, st')

/-- `DSAInterviewPrepAgent._generate_study_suggestions`, translating the
three sequential conditional appends of the source. -/
def _generate_study_suggestions (progress : Summary) : List String :=
  let suggestions : List String := []
  let suggestions :=
    if progress.total_problems < 10 then
      suggestions ++ ["Build consistency by solving at least 2 problems daily"]
    else suggestions
  let suggestions :=
    if progress.accuracy < 50 then
      suggestions ++ ["Focus on understanding concepts before attempting more problems"]
    else suggestions
  let suggestions :=
    if progress.weak_areas ≠ [] then
      suggestions ++ ["Review " ++ progress.weak_areas.headD "" ++ " fundamentals"]
    else suggestions
  suggestions

/-- Return value of `DSAInterviewPrepAgent.get_study_plan`. -/
structure StudyPlan where
  current_progress : Summary
  recommended_topic : String
  weak_areas : List String
  suggestions : List String
deriving DecidableEq

/-- `DSAInterviewPrepAgent.get_study_plan`. -/
def get_study_plan (st : UserData) : StudyPlan :=
  let progress := get_progress_summary st
  let next_topic := recommend_next_topic st
  { current_progress := progress
  , recommended_topic := next_topic
  , weak_areas := progress.weak_areas
  , suggestions := _generate_study_suggestions progress }

/-- `get_progress_summary` as a state transformer, mirroring the Python
method call on `self`: it reads the state and returns it unchanged. -/
def get_progress_summary_op (s : UserData) : Summary × UserData :=
  (get_progress_summary s, s)

/-- Arguments of one `update_progress` call (problem id, topic,
difficulty, solved flag, timestamp). -/
structure Call where
  problem_id : String
  topic : String
  difficulty : String
  solved : Bool
  now : Nat
deriving Repr, DecidableEq

/-- Run a sequence of `update_progress` calls from a starting state. -/
def run_attempts (s : UserData) : List Call → UserData
  | [] => s
  | c :: cs =>
    run_attempts (update_progress s c.problem_id c.topic c.difficulty c.solved c.now).2 cs

/-- The data-model invariant of the progress state. -/
def Invariant (s : UserData) : Prop :=
  (∀ a ∈ s.problems_solved, a.topic ∈ s.topics_covered)
  ∧ (∀ t ∈ s.weak_areas, t ∈ s.topics_covered)
  ∧ s.weak_areas.Nodup
  ∧ solved_count s ≤ s.total_problems

/-- A progress state with three attempts (two unsolved on Graphs, one
solved on Arrays): total 3, one solved, weak areas `["Graphs"]`. -/
def example_state : UserData :=
  run_attempts initial_user_data
    [⟨"p1", "Graphs", "Medium", false, 0⟩,
     ⟨"p2", "Graphs", "Medium", false, 1⟩,
     ⟨"p3", "Arrays", "Medium", true, 2⟩]

-- Helper lemmas

lemma solved_count_update (s : UserData) (pid topic diff : String)
    (solved : Bool) (now : Nat) :
    solved_count (update_progress s pid topic diff solved now).2 =
      solved_count s + (if solved then 1 else 0) := by
  simp [solved_count, update_progress, List.filter_append]
  cases solved <;> simp

lemma run_attempts_total (cs : List Call) : ∀ s : UserData,
    (run_attempts s cs).total_problems = s.total_problems + cs.length := by
  induction cs with
  | nil => intro s; simp [run_attempts]
  | cons c cs ih =>
    intro s
    simp only [run_attempts, ih, update_progress, List.length_cons]
    omega

lemma run_attempts_solved (cs : List Call) : ∀ s : UserData,
    solved_count (run_attempts s cs) =
      solved_count s + (cs.filter (fun c => c.solved)).length := by
  induction cs with
  | nil => intro s; simp [run_attempts]
  | cons c cs ih =>
    intro s
    simp only [run_attempts, ih, solved_count_update, List.filter_cons]
    cases h : c.solved
    · simp
    · simp
      omega

lemma round_mono {x y : ℚ} (h : x ≤ y) : round x ≤ round y := by
  rw [round_eq, round_eq]
  exact Int.floor_le_floor (by linarith)

lemma round2_nonneg {q : ℚ} (h : 0 ≤ q) : 0 ≤ round2 q := by
  unfold round2
  have h1 : (0 : ℤ) ≤ round (q * 100) := by
    have := round_mono (show (0 : ℚ) ≤ q * 100 by nlinarith)
    simpa using this
  positivity

lemma round2_le_100 {q : ℚ} (h : q ≤ 100) : round2 q ≤ 100 := by
  unfold round2
  have h1 : round (q * 100) ≤ (10000 : ℤ) := by
    have h2 := round_mono (show q * 100 ≤ ((10000 : ℤ) : ℚ) by push_cast; nlinarith)
    simpa using h2
  rw [div_le_iff₀ (by norm_num)]
  exact_mod_cast h1

-- C1

/-- C1: the spec requires the recorded attempt to carry the verdict
extracted from the evaluation and the submitted problem's topic and
difficulty.  The code instead records, for every submission and for every
evaluator outcome `resp` (including failures and negative verdicts), the
hardcoded values `solved = True`, topic `'Dynamic Programming'`,
difficulty `'Medium'`: the evaluation never drives the recorded outcome. -/
theorem submit_solution_hardcodes_attempt (st : UserData)
    (pid code lang : String) (resp : ModelResponse) (now : Nat) :
    (submit_solution st pid code lang resp now).2.problems_solved =
      st.problems_solved ++ [⟨pid, "Dynamic Programming", "Medium", true, now⟩] := by
  rfl

-- C2

/-- C2: the spec requires that on evaluator failure no attempt is
recorded and `totalProblems` is unchanged.  The code records an attempt
anyway: when the evaluator returns the error dictionary, the result still
carries that error, yet `total_problems` has grown by one and the history
by one attempt. -/
theorem submit_solution_records_on_failure (st : UserData)
    (pid code lang msg : String) (now : Nat) :
    (submit_solution st pid code lang (.exn msg) now).1.evaluation = .error msg
  ∧ (submit_solution st pid code lang (.exn msg) now).2.total_problems =
      st.total_problems + 1
  ∧ (submit_solution st pid code lang (.exn msg) now).2.problems_solved.length =
      st.problems_solved.length + 1 := by
  refine ⟨rfl, rfl, ?_⟩
  simp [submit_solution, update_progress]

-- C3

/-- C3 counterexample: `update_progress` performs no input validation.
`"Bogus"` is not a catalog topic and `""` is an empty problem id, yet both
calls succeed and mutate the state (`total_problems` goes from 0 to 1),
contradicting the claim that invalid input is rejected before any state
mutation. -/
theorem update_progress_no_validation_cex :
    "Bogus" ∉ all_topics
  ∧ (update_progress initial_user_data "p1" "Bogus" "Easy" true 0).2.total_problems = 1
  ∧ (update_progress initial_user_data "" "Arrays" "Easy" true 0).2.total_problems = 1 := by
  refine ⟨by decide, rfl, rfl⟩

/-- C3 amended: `update_progress` accepts every input — including topics
outside the TopicCatalog and empty ids (there is no learner id at all in
the single-learner store) — always appends the attempt and increments the
counter, and never fails. -/
theorem update_progress_always_appends (s : UserData)
    (pid topic diff : String) (solved : Bool) (now : Nat) :
    (update_progress s pid topic diff solved now).2.problems_solved =
      s.problems_solved ++ [⟨pid, topic, diff, solved, now⟩]
  ∧ (update_progress s pid topic diff solved now).2.total_problems =
      s.total_problems + 1 := ⟨rfl, rfl⟩

-- C4

/-- C4: `recommend_next_topic` returns the first weak area when there is
one; otherwise the first catalog topic not yet covered; otherwise (no weak
areas, everything covered) the catalog's first topic `"Arrays"`; and it
always returns some topic — an element of `weak_areas` or of the
catalog. -/
theorem recommend_next_topic_policy (st : UserData) :
    (∀ t l, st.weak_areas = t :: l → recommend_next_topic st = t)
  ∧ (∀ u l, st.weak_areas = [] →
      all_topics.filter (fun t => decide (t ∉ st.topics_covered)) = u :: l →
      recommend_next_topic st = u)
  ∧ (st.weak_areas = [] →
      all_topics.filter (fun t => decide (t ∉ st.topics_covered)) = [] →
      recommend_next_topic st = "Arrays")
  ∧ (recommend_next_topic st ∈ st.weak_areas ∨ recommend_next_topic st ∈ all_topics) := by
  refine ⟨?_, ?_, ?_, ?_⟩
  · intro t l h; simp [recommend_next_topic, h]
  · intro u l h hf
    simp only [decide_not] at hf
    simp [recommend_next_topic, h, hf]
  · intro h hf
    simp only [decide_not] at hf
    simp [recommend_next_topic, h, hf]
    rfl
  · unfold recommend_next_topic
    cases hw : st.weak_areas with
    | cons t l => left; simp
    | nil =>
      right
      cases hf : all_topics.filter (fun t => decide (t ∉ st.topics_covered)) with
      | nil => decide
      | cons u l =>
        have : u ∈ all_topics.filter (fun t => decide (t ∉ st.topics_covered)) := by
          rw [hf]; exact List.mem_cons_self u l
        exact List.mem_of_mem_filter this

/-- Witness for C4 at concrete inputs: a state with `weak_areas =
["Graphs"]` gets `"Graphs"` recommended, and a state with no weak areas
and every catalog topic covered cycles back to `"Arrays"`. -/
theorem recommend_next_topic_policy_witness :
    recommend_next_topic { initial_user_data with weak_areas := ["Graphs"] } = "Graphs"
  ∧ recommend_next_topic { initial_user_data with topics_covered := all_topics.toFinset } = "Arrays" :=
  ⟨(recommend_next_topic_policy _).1 "Graphs" [] rfl,
   (recommend_next_topic_policy _).2.2.1 rfl (by decide)⟩

-- C5

/-- C5: after any finite sequence of `update_progress` calls from the
empty state, the summary's `total_problems` equals the number of calls and
its `problems_solved` equals the number of calls with `solved = true`. -/
theorem record_attempt_counts (cs : List Call) :
    (get_progress_summary (run_attempts initial_user_data cs)).total_problems =
      cs.length
  ∧ (get_progress_summary (run_attempts initial_user_data cs)).problems_solved =
      (cs.filter (fun c => c.solved)).length := by
  constructor
  · simpa [get_progress_summary, initial_user_data] using
      run_attempts_total cs initial_user_data
  · simpa [get_progress_summary, initial_user_data, solved_count] using
      run_attempts_solved cs initial_user_data

-- C6

/-- C6: the invariant — every topic in the history is in
`topics_covered`, `weak_areas` is a duplicate-free subset of
`topics_covered`, and the solved count never exceeds `total_problems` —
holds for the initial state and is preserved by every `update_progress`
call (the only state-mutating operation of the tracker). -/
theorem invariant_initial_and_preserved :
    Invariant initial_user_data
  ∧ ∀ (s : UserData) (pid topic diff : String) (solved : Bool) (now : Nat),
      Invariant s → Invariant (update_progress s pid topic diff solved now).2 := by
  constructor
  · exact ⟨by simp [initial_user_data], by simp [initial_user_data],
      by simp [initial_user_data], by simp [initial_user_data, solved_count]⟩
  · rintro s pid topic diff solved now ⟨h1, h2, h3, h4⟩
    refine ⟨?_, ?_, ?_, ?_⟩
    · intro a ha
      simp only [update_progress, List.mem_append, List.mem_singleton] at ha
      rcases ha with ha | ha
      · exact Finset.mem_insert_of_mem (h1 a ha)
      · subst ha; exact Finset.mem_insert_self _ _
    · intro t ht
      simp only [update_progress] at ht ⊢
      by_cases hc : ¬ solved ∧ topic ∉ s.weak_areas
      · rw [if_pos hc] at ht
        rcases List.mem_append.mp ht with h | h
        · exact Finset.mem_insert_of_mem (h2 t h)
        · simp only [List.mem_singleton] at h
          subst h; exact Finset.mem_insert_self _ _
      · rw [if_neg hc] at ht
        exact Finset.mem_insert_of_mem (h2 t ht)
    · simp only [update_progress]
      by_cases hc : ¬ solved ∧ topic ∉ s.weak_areas
      · rw [if_pos hc]
        simp [List.nodup_append, h3, List.disjoint_singleton, hc.2]
      · rw [if_neg hc]; exact h3
    · have := solved_count_update s pid topic diff solved now
      simp only [update_progress] at this ⊢
      rw [this]
      cases solved <;> simp <;> omega

/-- Witness for C6: the invariant holds at the concrete state reached by
recording one failed Graphs attempt from the initial state. -/
theorem invariant_witness :
    Invariant (update_progress initial_user_data "p1" "Graphs" "Medium" false 0).2 :=
  invariant_initial_and_preserved.2 initial_user_data "p1" "Graphs" "Medium" false 0
    invariant_initial_and_preserved.1

-- C7

/-- C7: the summary's accuracy is `0` when `total_problems = 0` (with no
error raised: `get_progress_summary` is total), equals
`solvedCount / totalProblems * 100` rounded to two decimal places when
`total_problems > 0`, and lies in `[0, 100]` whenever the solved count
does not exceed the total (which the invariant guarantees). -/
theorem accuracy_spec (s : UserData) :
    (s.total_problems = 0 → (get_progress_summary s).accuracy = 0)
  ∧ (s.total_problems > 0 →
      (get_progress_summary s).accuracy =
        round2 ((solved_count s : ℚ) / (s.total_problems : ℚ) * 100))
  ∧ (solved_count s ≤ s.total_problems →
      0 ≤ (get_progress_summary s).accuracy ∧ (get_progress_summary s).accuracy ≤ 100) := by
  refine ⟨?_, ?_, ?_⟩
  · intro h
    simp [get_progress_summary, h, round2]
  · intro h
    simp [get_progress_summary, h]
  · intro hle
    by_cases h : s.total_problems > 0
    · have hpos : (0 : ℚ) < (s.total_problems : ℚ) := by exact_mod_cast h
      have hv0 : (0 : ℚ) ≤ (solved_count s : ℚ) / (s.total_problems : ℚ) * 100 := by
        positivity
      have hv1 : (solved_count s : ℚ) / (s.total_problems : ℚ) * 100 ≤ 100 := by
        have hd : (solved_count s : ℚ) / (s.total_problems : ℚ) ≤ 1 := by
          rw [div_le_one hpos]; exact_mod_cast hle
        nlinarith
      simp only [get_progress_summary, if_pos h]
      exact ⟨round2_nonneg hv0, round2_le_100 hv1⟩
    · have h0 : s.total_problems = 0 := by omega
      simp [get_progress_summary, h0, round2]

/-- Witness for C7 at a concrete state: after one solved and one unsolved
attempt, accuracy is `50` and the bounds hold. -/
theorem accuracy_spec_witness :
    (0 ≤ (get_progress_summary example_state).accuracy
      ∧ (get_progress_summary example_state).accuracy ≤ 100)
  ∧ (get_progress_summary example_state).accuracy =
      round2 ((solved_count example_state : ℚ) / (example_state.total_problems : ℚ) * 100) :=
  ⟨(accuracy_spec example_state).2.2 (by decide),
   (accuracy_spec example_state).2.1 (by decide)⟩

-- C8

/-- C8: the study-plan suggestions are exactly the concatenation, in the
fixed rule order, of every matching rule (fewer than 10 problems; accuracy
below 50; non-empty weak areas — not mutually exclusive); and at the
concrete state with `total_problems = 3`, `accuracy = 33.33` and
`weak_areas = ["Graphs"]` all three suggestions appear, in rule order. -/
theorem study_suggestions_rule_table :
    (∀ p : Summary, _generate_study_suggestions p =
        (if p.total_problems < 10 then
          ["Build consistency by solving at least 2 problems daily"] else [])
        ++ (if p.accuracy < 50 then
          ["Focus on understanding concepts before attempting more problems"] else [])
        ++ (if p.weak_areas ≠ [] then
          ["Review " ++ p.weak_areas.headD "" ++ " fundamentals"] else []))
  ∧ (get_progress_summary example_state).total_problems = 3
  ∧ (get_progress_summary example_state).accuracy = 3333 / 100
  ∧ (get_progress_summary example_state).weak_areas = ["Graphs"]
  ∧ (get_study_plan example_state).suggestions =
      ["Build consistency by solving at least 2 problems daily",
       "Focus on understanding concepts before attempting more problems",
       "Review Graphs fundamentals"] := by
  have hgen : ∀ p : Summary, _generate_study_suggestions p =
      (if p.total_problems < 10 then
        ["Build consistency by solving at least 2 problems daily"] else [])
      ++ (if p.accuracy < 50 then
        ["Focus on understanding concepts before attempting more problems"] else [])
      ++ (if p.weak_areas ≠ [] then
        ["Review " ++ p.weak_areas.headD "" ++ " fundamentals"] else []) := by
    intro p
    simp only [_generate_study_suggestions]
    split_ifs <;> simp
  have h1 : solved_count example_state = 1 := by decide
  have h2 : example_state.total_problems = 3 := by decide
  have h3 : example_state.weak_areas = ["Graphs"] := by decide
  have hround : round ((10000 : ℚ) / 3) = 3333 := by
    rw [round_eq]
    rw [show ((10000 : ℚ) / 3 + 1 / 2) = ((20003 : ℤ) : ℚ) / ((6 : ℕ) : ℚ) by norm_num]
    rw [Rat.floor_intCast_div_natCast]
    decide
  have hacc : (get_progress_summary example_state).accuracy = 3333 / 100 := by
    simp only [get_progress_summary, h1, h2, round2]
    norm_num
    rw [hround]
    norm_num
  have ht : (get_progress_summary example_state).total_problems = 3 := by
    simp [get_progress_summary, h2]
  have hw : (get_progress_summary example_state).weak_areas = ["Graphs"] := by
    simp [get_progress_summary, h3]
  refine ⟨hgen, ht, hacc, hw, ?_⟩
  show (get_study_plan example_state).suggestions = _
  simp only [get_study_plan]
  rw [hgen, ht, hacc, hw]
  norm_num
  rfl

-- C9

/-- C9: `get_progress_summary` is read-only and idempotent: as a state
transformer it returns the state unchanged, and calling it twice with no
intervening writes yields the same summary. -/
theorem get_summary_idempotent_readonly (s : UserData) :
    (get_progress_summary_op s).2 = s
  ∧ (get_progress_summary_op ((get_progress_summary_op s).2)).1 =
      (get_progress_summary_op s).1 := ⟨rfl, rfl⟩

-- C10

/-- C10: `start_session` never mutates the progress state: for every
state, every model outcome (success or failure of the generator port) and
every timestamp, the state after the call — hence its history, covered
topics, weak areas, total and solved counts — equals the state before. -/
theorem start_session_preserves_state (st : UserData) (user_level : String)
    (resp : ModelResponse) (now : Nat) :
    (start_session st user_level resp now).2 = st := rfl

end DSAAgent
